import Mathlib

/-!
Verification of the IP-addressing generator (`adresacja-generator.js`).

The JavaScript source is shallowly embedded: IPv4 addresses in dotted-quad
text form are represented by their four octets as a `List Nat`; JS numbers
holding addresses are represented by `Nat`, with an explicit `% 2^32`
wherever the source performs a `>>> 0` / `ToUint32` conversion.  A JS
`x >>> k` (on the values that occur here) is division by `2^k` after the
`ToUint32` conversion, and `x & 255` is `x % 256`.  Fallible operations
are modelled with `Option`.  All recursion is structural so that every
definition evaluates by kernel reduction.

File reading, CSV text parsing and HTTP handling are outside the embedded
core: the functions below receive already-parsed rows, the in-memory
registry list, and the base name of the uploaded file, exactly as the
source computes with them after its own parsing steps.
-/

namespace Adresacja

/-- `ipToNumber(ip)`: big-endian packing of the four octets,
`ip.split('.').reduce((acc, octet) => (acc << 8) + parseInt(octet), 0) >>> 0`.
For octet values below `2^31` the per-step 32-bit wrap of the JS `<<`
operator composed with the final `>>> 0` equals a single `% 2^32` applied
to the exact fold, which is how it is written here. -/
def ipToNumber (octets : List Nat) : Nat :=
  (octets.foldl (fun acc octet => acc * 256 + octet) 0) % 2 ^ 32

/-- `numberToIp(num)`: the four bytes of `ToUint32(num)`, most significant
first (`num >>> 24 & 255`, `num >>> 16 & 255`, `num >>> 8 & 255`, `num & 255`). -/
def numberToIp (num : Nat) : List Nat :=
  [num % 2 ^ 32 / 2 ^ 24 % 256,
   num % 2 ^ 32 / 2 ^ 16 % 256,
   num % 2 ^ 32 / 2 ^ 8 % 256,
   num % 2 ^ 32 % 256]

/-- `cidrToDecimal(cidr)`: dotted mask, octet `i` is
`(0xFF << (8 - bits)) & 0xFF` with `bits = max(0, min(8, cidr - i*8))`
(the `max 0` is the truncation already built into `Nat` subtraction). -/
def cidrToDecimal (cidr : Nat) : List Nat :=
  (List.range 4).map (fun i => 255 * 2 ^ (8 - min 8 (cidr - i * 8)) % 256)

/-- `hostsForMask(mask) = 2^(32-mask) - 2`.  The JS value is negative for
`mask ≥ 32` and fractional beyond; all uses in the program have `mask ≤ 30`,
where this `Nat` version coincides with the source. -/
def hostsForMask (mask : Nat) : Nat :=
  2 ^ (32 - mask) - 2

/-- One record of `DATA.json` (the persistent registry of reserved
subnets), as pushed by `generateAdresacja`. -/
structure UsedRange where
  network : List Nat
  mask : Nat
  rangeStart : List Nat
  rangeEnd : List Nat
  assignedTo : String
deriving DecidableEq

/-- `isRangeAvailable(networkNum, mask, usedRanges)`: the candidate
interval `[networkNum, networkNum + 2^(32-mask) - 1]` must miss every
used interval; two intervals miss each other exactly when
`rangeEndNum < usedStart || rangeStartNum > usedEnd`. -/
def isRangeAvailable (networkNum mask : Nat) (usedRanges : List UsedRange) : Bool :=
  usedRanges.all fun used =>
    let usedStart := ipToNumber used.network
    let usedEnd := usedStart + 2 ^ (32 - used.mask) - 1
    decide (networkNum + 2 ^ (32 - mask) - 1 < usedStart) || decide (networkNum > usedEnd)

/-- Fuel-driven computation of the least `e` (starting from `e₀`) with
`x ≤ 2^e`; used to express `Math.ceil(Math.log2 x)` by structural
recursion. -/
def clogAux (x : Nat) : Nat → Nat → Nat
  | 0, e => e
  | fuel + 1, e => if x ≤ 2 ^ e then e else clogAux x fuel (e + 1)

/-- `Math.ceil(Math.log2 x)` for `1 ≤ x ≤ 2^33`: the least `e` with
`x ≤ 2^e` (for these magnitudes the double-precision `Math.log2` never
rounds across an integer, so the ceiling agrees with the exact value). -/
def ceilLog2 (x : Nat) : Nat := clogAux x 33 0

/-- `findSmallestMask(hosts) = 32 - Math.ceil(Math.log2(hosts + 2))`. -/
def findSmallestMask (hosts : Nat) : Nat := 32 - ceilLog2 (hosts + 2)

/-- The inner `while (tries--)` loop of `findAvailableRange`: probe
candidates from `candidateNetNum`, stepping by `2^(32-mask)`, for at most
`tries` attempts. -/
def probeCandidates (mask : Nat) (usedRanges : List UsedRange) : Nat → Nat → Option Nat
  | 0, _ => none
  | tries + 1, candidateNetNum =>
    if isRangeAvailable candidateNetNum mask usedRanges then some candidateNetNum
    else probeCandidates mask usedRanges tries (candidateNetNum + 2 ^ (32 - mask))

/-- The outer `while (mask <= 30)` loop of `findAvailableRange`: each pass
probes 512 candidates from the base network at the current mask and then
increments the mask.  A start mask of `m` needs `32 - m ≤ 32` loop steps
(including the final failing `mask ≤ 30` test), so fuel `32` never
truncates the loop. -/
def searchFromMask (baseNum : Nat) (usedRanges : List UsedRange) : Nat → Nat → Option (Nat × Nat)
  | 0, _ => none
  | fuel + 1, mask =>
    if mask ≤ 30 then
      match probeCandidates mask usedRanges 512 baseNum with
      | some candidateNetNum => some (candidateNetNum, mask)
      | none => searchFromMask baseNum usedRanges fuel (mask + 1)
    else none

/-- `findAvailableRange(baseNetwork, minRequired, usedRanges)`:
`none` models the thrown `"Brak wolnych pul adresowych!"` (PoolExhausted)
error.  On success the returned network is `numberToIp(candidateNetNum)`,
which wraps the raw probe counter modulo `2^32`. -/
def findAvailableRange (baseNetwork : List Nat) (minRequired : Nat)
    (usedRanges : List UsedRange) : Option (List Nat × Nat) :=
  match searchFromMask (ipToNumber baseNetwork) usedRanges 32 (findSmallestMask minRequired) with
  | some (candidateNetNum, mask) => some (numberToIp candidateNetNum, mask)
  | none => none

/-- Disjointness of the integer intervals `[network, network + 2^(32-mask) - 1]`
of two registry records (the invariant language of the specification). -/
def reservationsDisjoint (a b : UsedRange) : Prop :=
  ipToNumber a.network + 2 ^ (32 - a.mask) - 1 < ipToNumber b.network ∨
  ipToNumber b.network + 2 ^ (32 - b.mask) - 1 < ipToNumber a.network

instance : DecidableRel reservationsDisjoint := fun a b => by
  unfold reservationsDisjoint; infer_instance

/-- One normalized input row, as built by `generateAdresacja` from a CSV
record (`nazwaObiektu`, `kategoria`, `nazwa`, `ilosc`, `klasa`). -/
structure CsvRow where
  nazwaObiektu : String
  kategoria : String
  nazwa : String
  ilosc : Nat
  klasa : String
deriving DecidableEq

/-- Substring test on character lists (`hay.includes(sub)` of JS). -/
def includesChars (sub : List Char) : List Char → Bool
  | [] => sub.isEmpty
  | c :: rest => sub.isPrefixOf (c :: rest) || includesChars sub rest

/-- `hay.includes(sub)` of JS strings. -/
def strIncludes (hay sub : String) : Bool := includesChars sub.toList hay.toList

/-- ECMAScript array-index classification of a property key: a key is an
array index when it is the canonical base-10 numeral of an integer below
`2^32 - 1` (so `"2"` is, `"02"` and non-numeric strings are not).  Such
keys are enumerated before all other own keys of a plain object. -/
def arrayIndexOf (s : String) : Option Nat :=
  match s.toList with
  | [] => none
  | c :: rest =>
    if (c :: rest).all (fun ch => decide ('0' ≤ ch) && decide (ch ≤ '9')) then
      if c = '0' ∧ rest ≠ [] then none
      else
        let v := (c :: rest).foldl (fun acc ch => acc * 10 + (ch.toNat - 48)) 0
        if v < 4294967295 then some v else none
    else none

/-- Numeric value of an array-index key (0 for non-index keys, only ever
applied to index keys). -/
def keyVal (s : String) : Nat := (arrayIndexOf s).getD 0

/-- Ascending insertion into a list of array-index keys. -/
def insertKeyAsc (k : String) : List String → List String
  | [] => [k]
  | x :: xs => if keyVal k ≤ keyVal x then k :: x :: xs else x :: insertKeyAsc k xs

/-- Ascending sort of array-index keys by numeric value. -/
def sortNumericKeys : List String → List String
  | [] => []
  | x :: xs => insertKeyAsc x (sortNumericKeys xs)

/-- Enumeration order of the own keys of a plain JS object
(`OrdinaryOwnPropertyKeys`): array-index keys in ascending numeric order
first, then the remaining string keys in insertion order.  `Object.values`
visits properties in this order. -/
def jsObjectKeyOrder (keys : List String) : List String :=
  sortNumericKeys (keys.filter fun k => (arrayIndexOf k).isSome)
    ++ keys.filter fun k => !(arrayIndexOf k).isSome

/-- Keys in order of first occurrence (the insertion order of
`grupyLanz[row.nazwaObiektu] = []` while iterating the rows). -/
def firstOccurAux (seen : List String) : List String → List String
  | [] => []
  | k :: rest => if k ∈ seen then firstOccurAux seen rest else k :: firstOccurAux (k :: seen) rest

/-- Keys of a list in order of first occurrence. -/
def firstOccur (l : List String) : List String := firstOccurAux [] l

/-- `sortCsvRows(csvRows)` on its non-throwing inputs: the four class
buckets, with the `lanz` bucket grouped per `nazwaObiektu` through a plain
JS object (`grupyLanz`) whose `Object.values` enumeration order is
modelled by `jsObjectKeyOrder` over the first-occurrence key list; inside
each group the `WV-U1532LA` matches come first, then the `WV-S1536LTN`
matches, then the rest.  An object name that is a member name of
`Object.prototype` makes the source throw `TypeError` instead (see
`sortCsvRowsThrows` / `sortCsvRowsRun` below for the executed function). -/
def sortCsvRows (csvRows : List CsvRow) : List CsvRow :=
  let klasaBrak := csvRows.filter fun row => row.klasa == "" || row.klasa == "brak"
  let klasaLan := csvRows.filter fun row => row.klasa == "lan"
  let klasaLanz := csvRows.filter fun row => row.klasa == "lanz"
  let lanzKeys := jsObjectKeyOrder (firstOccur (klasaLanz.map (·.nazwaObiektu)))
  let sortedLanz := lanzKeys.flatMap fun key =>
    let grupa := klasaLanz.filter fun row => row.nazwaObiektu == key
    let wvU1532LA := grupa.filter fun row => strIncludes row.nazwa "WV-U1532LA"
    let wvS1536LTN := grupa.filter fun row => strIncludes row.nazwa "WV-S1536LTN"
    let reszta := grupa.filter fun row =>
      !strIncludes row.nazwa "WV-U1532LA" && !strIncludes row.nazwa "WV-S1536LTN"
    wvU1532LA ++ wvS1536LTN ++ reszta
  let klasaLanz1 := csvRows.filter fun row => row.klasa == "lanz1"
  klasaBrak ++ klasaLan ++ sortedLanz ++ klasaLanz1

/-- The member names of `Object.prototype` (Node.js, Annex B included).
A property read on a plain object falls back to these through the
prototype chain, so `grupyLanz[name]` is truthy for every one of them
(functions, or the `__proto__` accessor yielding `Object.prototype`)
even before any insertion. -/
def objectPrototypeKeys : List String :=
  ["constructor", "hasOwnProperty", "isPrototypeOf", "propertyIsEnumerable",
   "toLocaleString", "toString", "valueOf", "__proto__",
   "__defineGetter__", "__defineSetter__", "__lookupGetter__", "__lookupSetter__"]

/-- Whether `sortCsvRows` throws: for a `lanz` row whose `nazwaObiektu` is
an `Object.prototype` member name, `if (!grupyLanz[row.nazwaObiektu])`
sees the truthy inherited member, the array initialization is skipped,
and `grupyLanz[row.nazwaObiektu].push(row)` throws `TypeError`. -/
def sortCsvRowsThrows (csvRows : List CsvRow) : Bool :=
  (csvRows.filter fun row => row.klasa == "lanz").any
    (fun row => objectPrototypeKeys.contains row.nazwaObiektu)

/-- `sortCsvRows` as executed: `none` models the thrown `TypeError`,
otherwise the sorted list. -/
def sortCsvRowsRun (csvRows : List CsvRow) : Option (List CsvRow) :=
  if sortCsvRowsThrows csvRows then none else some (sortCsvRows csvRows)

/-- `countCameraSets`: quantities of rows naming `U1532` or `S1536LTN`,
class `lanz1` excluded. -/
def countCameraSets (csvRows : List CsvRow) : Nat :=
  ((csvRows.filter fun row =>
      (strIncludes row.nazwa "U1532" || strIncludes row.nazwa "S1536LTN")
        && !(row.klasa == "lanz1")).map (·.ilosc)).sum

/-- `countU1532CamerasInKATObjects`: quantities of `U1532` rows in
categories `KAT A` / `KAT B`, class `lanz1` excluded. -/
def countU1532CamerasInKATObjects (csvRows : List CsvRow) : Nat :=
  ((csvRows.filter fun row =>
      strIncludes row.nazwa "U1532"
        && (row.kategoria == "KAT A" || row.kategoria == "KAT B")
        && !(row.klasa == "lanz1")).map (·.ilosc)).sum

/-- `countSKPAndKATACameras`: quantities of rows in categories `SKP` /
`KAT A`, class `lanz1` excluded. -/
def countSKPAndKATACameras (csvRows : List CsvRow) : Nat :=
  ((csvRows.filter fun row =>
      (row.kategoria == "SKP" || row.kategoria == "KAT A")
        && !(row.klasa == "lanz1")).map (·.ilosc)).sum

/-- The `DISK_CAPACITIES` constant table. -/
def DISK_CAPACITIES : List (String × Nat) :=
  [("8TB", 8000), ("12TB", 12000), ("16TB", 16000), ("20TB", 20000), ("24TB", 24000)]

/-- The two feature flags destructured from the `config` argument. -/
structure Config where
  lprEnabled : Bool
  redLightEnabled : Bool
deriving DecidableEq

/-- One element pushed onto the `equipment` array. -/
structure EquipmentItem where
  nazwa : String
  klasa : String
  typ : String
  ilosc : Nat
  opis : String
deriving DecidableEq

/-- `generateNastawniaEquipment(csvRows, config)`.  `Math.ceil(a / b)` on
the natural quantities involved is `(a + b - 1) / b`; the 1-based `for`
loops pushing `serversNeeded` and `recordersNeeded` items are the mapped
ranges. -/
def generateNastawniaEquipment (csvRows : List CsvRow) (config : Config) : List EquipmentItem :=
  if !config.lprEnabled then []
  else
    let cameraSets := countCameraSets csvRows
    let allCameras := countSKPAndKATACameras csvRows
    let u1532Cameras := countU1532CamerasInKATObjects csvRows
    let mcfg :=
      if config.redLightEnabled then (4, max 8 allCameras, u1532Cameras)
      else (12, max 8 allCameras, 0)
    let maxSetsPerServer := mcfg.1
    let ssvLicenses := mcfg.2.1
    let vcaLicenses := mcfg.2.2
    let serversNeeded := (cameraSets + maxSetsPerServer - 1) / maxSetsPerServer
    let servers := (List.range serversNeeded).map fun i =>
      { nazwa := "Serwer LPR " ++ toString (i + 1), klasa := "Klasa-0", typ := "serwer",
        ilosc := 1,
        opis := "Serwer dla zestawu kamer U1532/S1536LTN (max "
          ++ toString maxSetsPerServer ++ " zestawów)" : EquipmentItem }
    let ssvItems : List EquipmentItem :=
      if ssvLicenses > 0 then
        [{ nazwa := "Licencja SSV", klasa := "Klasa-0", typ := "licencja", ilosc := ssvLicenses,
           opis := "Licencja SSV dla " ++ toString ssvLicenses ++ " kamer (minimum 8)" }]
      else []
    let vcaItems : List EquipmentItem :=
      if vcaLicenses > 0 then
        [{ nazwa := "Licencja VCA", klasa := "Klasa-0", typ := "licencja", ilosc := vcaLicenses,
           opis := "Licencja VCA dla " ++ toString vcaLicenses ++ " kamer U1532 w obiektach KAT A/B" }]
      else []
    let recorders : List EquipmentItem :=
      if cameraSets > 0 then
        (List.range ((cameraSets + 16 - 1) / 16)).map fun i =>
          { nazwa := "Rejestrator NVR " ++ toString (i + 1), klasa := "Klasa-0",
            typ := "rejestrator", ilosc := 1,
            opis := "Rejestrator dla kamer (pojemność: "
              ++ toString ((DISK_CAPACITIES.lookup "16TB").getD 0) ++ "GB)" }
      else []
    servers ++ ssvItems ++ vcaItems ++ recorders

/-- `loadUsedRanges(dataPath)`: `readFileResult` is the outcome of
`fs.readFileSync` (`none` = missing/unreadable path), `parseJson` the
outcome of `JSON.parse` on the text; the `try/catch` turns either failure
into the empty registry. -/
def loadUsedRanges (readFileResult : Option String)
    (parseJson : String → Option (List UsedRange)) : List UsedRange :=
  match readFileResult with
  | none => []
  | some data =>
    match parseJson data with
    | none => []
    | some ranges => ranges

/-- A CSV output cell that is either a concrete dotted value or the
literal `'DHCP'` sentinel. -/
inductive OutField where
  | dhcp : OutField
  | ip : List Nat → OutField
deriving DecidableEq

/-- One generated output row (`'Nazwa Obiektu'`, `'Kategoria'`, `'Nazwa'`,
`'Adres ip V4'`, `'Maska'`, `'Brama domyślna'`, `'Serwer NTP'`). -/
structure OutputRow where
  nazwaObiektu : String
  kategoria : String
  nazwa : String
  adresIp : OutField
  maska : OutField
  brama : OutField
  ntp : OutField
deriving DecidableEq

/-- Whether an output row carries the dynamic-addressing sentinel. -/
def isDynamic (r : OutputRow) : Bool :=
  match r.adresIp with
  | .dhcp => true
  | .ip _ => false

/-- The output row pushed for one unit of a `lanz1` row. -/
def dhcpRow (row : CsvRow) : OutputRow :=
  ⟨row.nazwaObiektu, row.kategoria, row.nazwa, .dhcp, .dhcp, .dhcp, .dhcp⟩

/-- The output row pushed for one statically addressed unit. -/
def staticRow (row : CsvRow) (addr : List Nat) (mask : Nat) (rangeStart : List Nat) : OutputRow :=
  ⟨row.nazwaObiektu, row.kategoria, row.nazwa,
   .ip addr, .ip (cidrToDecimal mask), .ip rangeStart, .ip rangeStart⟩

/-- The inner `for (let i = 0; i < row.ilosc; i++)` loop of
`generateAdresacja`: emit `count` units of `row`, advancing `currentIP`
only for non-`lanz1` rows. -/
def emitUnits (row : CsvRow) (mask : Nat) (rangeStart : List Nat) :
    Nat → Nat → List OutputRow × Nat
  | 0, currentIP => ([], currentIP)
  | count + 1, currentIP =>
    if row.klasa == "lanz1" then
      let p := emitUnits row mask rangeStart count currentIP
      (dhcpRow row :: p.1, p.2)
    else
      let p := emitUnits row mask rangeStart count (currentIP + 1)
      (staticRow row (numberToIp currentIP) mask rangeStart :: p.1, p.2)

/-- The `sortedRows.forEach` loop of `generateAdresacja`: emit the units of
every row in order, threading `currentIP`. -/
def emitRows (mask : Nat) (rangeStart : List Nat) :
    List CsvRow → Nat → List OutputRow × Nat
  | [], currentIP => ([], currentIP)
  | row :: rest, currentIP =>
    let p := emitUnits row mask rangeStart row.ilosc currentIP
    let q := emitRows mask rangeStart rest p.2
    (p.1 ++ q.1, q.2)

/-- The value returned by `generateAdresacja` (the cosmetic `siecNazwa`
field, a regex projection of the file base name, is not modelled). -/
structure GenResult where
  fileName : String
  rows : List OutputRow
  network : List Nat
  mask : Nat
  rangeStart : List Nat
  rangeEnd : List Nat
  stationEquipment : List EquipmentItem
deriving DecidableEq

/-- The hardcoded base network `'172.16.0.0'`. -/
def baseNetwork : List Nat := [172, 16, 0, 0]

/-- `Math.ceil(totalDevices * 1.2)`: equal to `⌈6n/5⌉` exactly (for
realistic row counts the double-precision product stays within half an
ulp of the exact rational, so the ceiling never differs). -/
def devicesWithBuffer (totalDevices : Nat) : Nat := (6 * totalDevices + 4) / 5

/-- Sum of `ilosc` over a row list. -/
def totalCount (rows : List CsvRow) : Nat := (rows.map (·.ilosc)).sum

/-- Sum of `ilosc` over the non-`lanz1` rows (units that consume addresses). -/
def staticCount (rows : List CsvRow) : Nat :=
  ((rows.filter fun r => !(r.klasa == "lanz1")).map (·.ilosc)).sum

/-- Sum of `ilosc` over the `lanz1` rows (units that stay dynamic). -/
def dhcpCount (rows : List CsvRow) : Nat :=
  ((rows.filter fun r => r.klasa == "lanz1").map (·.ilosc)).sum

/-- `generateAdresacja(inputCsvPath, dataJsonPath, outputDir, config)`
after the CSV has been parsed into `csvRows` and `DATA.json` into
`usedRanges`; `fileBase` is the extensionless base name of the input file.
The second component is the registry saved to disk: when
`findAvailableRange` throws, the function exits before the push and
`saveUsedRanges`, so the registry is returned unchanged.  On inputs where
`sortCsvRowsThrows` holds the source throws `TypeError` inside the
classifier — before any allocation or save — and produces nothing; this
function uses the total `sortCsvRows`, so statements about it are
conditioned on a successful run (or on `findAvailableRange`'s own
failure), which the throwing inputs satisfy vacuously. -/
def generateAdresacja (csvRows : List CsvRow) (usedRanges : List UsedRange)
    (fileBase : String) (config : Config) : Option GenResult × List UsedRange :=
  let sortedRows := sortCsvRows csvRows
  let totalDevices := (sortedRows.map (·.ilosc)).sum
  match findAvailableRange baseNetwork (devicesWithBuffer totalDevices) usedRanges with
  | none => (none, usedRanges)
  | some (network, mask) =>
    let rangeStart := numberToIp (ipToNumber network + 1)
    let rangeEnd := numberToIp (ipToNumber network + hostsForMask mask)
    let outputFileName := "Adresacja_" ++ fileBase ++ ".csv"
    let newUsedRanges := usedRanges ++ [⟨network, mask, rangeStart, rangeEnd, outputFileName⟩]
    let assigned := emitRows mask rangeStart sortedRows (ipToNumber rangeStart)
    let stationEquipment := generateNastawniaEquipment csvRows config
    (some ⟨outputFileName, assigned.1, network, mask, rangeStart, rangeEnd, stationEquipment⟩,
     newUsedRanges)

/-- Builds the registry record `generateAdresacja` pushes on success. -/
def mkReservation (network : List Nat) (mask : Nat) (rangeStart rangeEnd : List Nat)
    (assignedTo : String) : UsedRange :=
  ⟨network, mask, rangeStart, rangeEnd, assignedTo⟩

/-- A one-entry registry holding `172.16.0.0/24` (concrete example data). -/
def exampleRegistry : List UsedRange :=
  [⟨[172, 16, 0, 0], 24, [172, 16, 0, 1], [172, 16, 0, 254], "Adresacja_a.csv"⟩]

/-- A one-entry registry holding the whole space `0.0.0.0/0` (concrete
example data: any registry content is loadable from `DATA.json`). -/
def fullRegistry : List UsedRange :=
  [⟨[0, 0, 0, 0], 0, [0, 0, 0, 1], [255, 255, 255, 254], "Adresacja_b.csv"⟩]

/-- Three rows with non-numeric object names (concrete example data). -/
def exampleRows : List CsvRow :=
  [⟨"B", "", "x", 1, "lanz"⟩, ⟨"A", "", "y", 2, "lanz"⟩, ⟨"", "", "z", 1, "lan"⟩]

/-- A single-device input row (concrete example data). -/
def exampleRow : CsvRow := ⟨"O", "K", "cam", 1, "lan"⟩

/-- The result of running `generateAdresacja [exampleRow] [] "f"` with both
flags off: one `/30` subnet from the base network, one static unit. -/
def exampleResult : GenResult :=
  ⟨"Adresacja_f.csv",
   [⟨"O", "K", "cam", .ip [172, 16, 0, 1], .ip [255, 255, 255, 252],
     .ip [172, 16, 0, 1], .ip [172, 16, 0, 1]⟩],
   [172, 16, 0, 0], 30, [172, 16, 0, 1], [172, 16, 0, 2], []⟩

/-- The registry persisted by that example run. -/
def exampleNewReg : List UsedRange :=
  [⟨[172, 16, 0, 0], 30, [172, 16, 0, 1], [172, 16, 0, 2], "Adresacja_f.csv"⟩]

/-! ## Theorems -/

/-- `ipToNumber` undoes `numberToIp` up to the `ToUint32` wrap. -/
theorem ipToNumber_numberToIp (n : Nat) :
    ipToNumber (numberToIp n) = n % 2 ^ 32 := by
  have h32 : (2 : Nat) ^ 32 = 4294967296 := by norm_num
  have h24 : (2 : Nat) ^ 24 = 16777216 := by norm_num
  have h16 : (2 : Nat) ^ 16 = 65536 := by norm_num
  have h8 : (2 : Nat) ^ 8 = 256 := by norm_num
  have hlt : n % 2 ^ 32 < 2 ^ 32 := Nat.mod_lt _ (by norm_num)
  simp only [ipToNumber, numberToIp, List.foldl]
  rw [h32] at *
  rw [h24, h16, h8]
  omega

/-- The wrap inside `numberToIp` makes it insensitive to a prior `% 2^32`. -/
theorem numberToIp_mod (n : Nat) : numberToIp (n % 2 ^ 32) = numberToIp n := by
  simp [numberToIp, Nat.mod_mod_of_dvd]

/-- A successful probe returns an available candidate that is one of the
`tries` successive blocks from `start`. -/
theorem probeCandidates_some {mask : Nat} {used : List UsedRange} :
    ∀ {tries start c : Nat}, probeCandidates mask used tries start = some c →
      isRangeAvailable c mask used = true ∧ ∃ k, k < tries ∧ c = start + k * 2 ^ (32 - mask)
  | 0, start, c, h => by simp [probeCandidates] at h
  | tries + 1, start, c, h => by
    rw [probeCandidates] at h
    by_cases hav : isRangeAvailable start mask used = true
    · rw [if_pos hav] at h
      cases h
      exact ⟨hav, 0, Nat.succ_pos _, by simp⟩
    · rw [if_neg hav] at h
      obtain ⟨h1, k, hk, hc⟩ := probeCandidates_some h
      refine ⟨h1, k + 1, by omega, ?_⟩
      rw [hc]; ring

/-- A failed probe means every one of the `tries` successive blocks from
`start` overlaps the registry. -/
theorem probeCandidates_none_iff {mask : Nat} {used : List UsedRange} :
    ∀ (tries start : Nat), probeCandidates mask used tries start = none ↔
      ∀ k, k < tries → isRangeAvailable (start + k * 2 ^ (32 - mask)) mask used = false
  | 0, start => by simp [probeCandidates]
  | tries + 1, start => by
    rw [probeCandidates]
    by_cases hav : isRangeAvailable start mask used = true
    · simp only [if_pos hav]
      constructor
      · intro h; cases h
      · intro h
        have := h 0 (Nat.succ_pos _)
        simp [hav] at this
    · simp only [if_neg hav]
      rw [probeCandidates_none_iff tries (start + 2 ^ (32 - mask))]
      constructor
      · intro h k hk
        match k with
        | 0 => simpa using Bool.eq_false_iff.mpr hav
        | k + 1 =>
          have := h k (by omega)
          rw [show start + 2 ^ (32 - mask) + k * 2 ^ (32 - mask)
                = start + (k + 1) * 2 ^ (32 - mask) by ring] at this
          exact this
      · intro h k hk
        have := h (k + 1) (by omega)
        rw [show start + (k + 1) * 2 ^ (32 - mask)
              = start + 2 ^ (32 - mask) + k * 2 ^ (32 - mask) by ring] at this
        exact this

/-- A successful search returns a successful 512-block probe at some mask
between the start mask and 30. -/
theorem searchFromMask_some {base : Nat} {used : List UsedRange} :
    ∀ {fuel mask c m : Nat}, searchFromMask base used fuel mask = some (c, m) →
      mask ≤ m ∧ m ≤ 30 ∧ probeCandidates m used 512 base = some c
  | 0, mask, c, m, h => by simp [searchFromMask] at h
  | fuel + 1, mask, c, m, h => by
    rw [searchFromMask] at h
    by_cases hm : mask ≤ 30
    · rw [if_pos hm] at h
      cases hp : probeCandidates mask used 512 base with
      | some cand => rw [hp] at h; cases h; exact ⟨le_refl _, hm, hp⟩
      | none =>
        rw [hp] at h
        obtain ⟨h1, h2, h3⟩ := searchFromMask_some h
        exact ⟨by omega, h2, h3⟩
    · rw [if_neg hm] at h; cases h

/-- If the probe at the start mask itself succeeds, the search stops there. -/
theorem searchFromMask_start {base : Nat} {used : List UsedRange} {fuel mask c : Nat}
    (hm : mask ≤ 30) (hp : probeCandidates mask used 512 base = some c) :
    searchFromMask base used (fuel + 1) mask = some (c, mask) := by
  rw [searchFromMask, if_pos hm, hp]

/-- With enough fuel (the real call has `fuel = 32`, `mask ≥ 0`), the
search fails exactly when every 512-block probe at every mask from the
start mask through 30 fails. -/
theorem searchFromMask_none_iff {base : Nat} {used : List UsedRange} :
    ∀ (fuel mask : Nat), 31 ≤ fuel + mask →
      (searchFromMask base used fuel mask = none ↔
        ∀ m, mask ≤ m → m ≤ 30 → probeCandidates m used 512 base = none)
  | 0, mask, hf => by
    simp only [searchFromMask, true_iff]
    intro m h1 h2; omega
  | fuel + 1, mask, hf => by
    rw [searchFromMask]
    by_cases hm : mask ≤ 30
    · rw [if_pos hm]
      cases hp : probeCandidates mask used 512 base with
      | some cand =>
        simp only [reduceCtorEq, false_iff, not_forall]
        exact ⟨mask, le_refl _, hm, by rw [hp]; simp⟩
      | none =>
        rw [searchFromMask_none_iff fuel (mask + 1) (by omega)]
        constructor
        · intro h m h1 h2
          rcases Nat.eq_or_lt_of_le h1 with rfl | hlt
          · exact hp
          · exact h m hlt h2
        · intro h m h1 h2; exact h m (by omega) h2
    · rw [if_neg hm]
      simp only [true_iff]
      intro m h1 h2; omega

/-- `clogAux` computes the least exponent `e' ≥ e` with `x ≤ 2^e'`,
provided the fuel reaches it. -/
theorem clogAux_spec (x : Nat) :
    ∀ (fuel e : Nat), x ≤ 2 ^ (fuel + e) →
      x ≤ 2 ^ clogAux x fuel e ∧ (∀ i, e ≤ i → i < clogAux x fuel e → 2 ^ i < x) ∧
        e ≤ clogAux x fuel e
  | 0, e, hx => by
    refine ⟨by simpa using hx, ?_, le_refl _⟩
    intro i h1 h2
    simp [clogAux] at h2
    omega
  | fuel + 1, e, hx => by
    rw [clogAux]
    by_cases he : x ≤ 2 ^ e
    · rw [if_pos he]
      exact ⟨he, by intro i h1 h2; omega, le_refl _⟩
    · rw [if_neg he]
      have hx' : x ≤ 2 ^ (fuel + (e + 1)) := by
        rw [show fuel + (e + 1) = fuel + 1 + e by ring]; exact hx
      obtain ⟨h1, h2, h3⟩ := clogAux_spec x fuel (e + 1) hx'
      refine ⟨h1, ?_, by omega⟩
      intro i hi1 hi2
      rcases Nat.eq_or_lt_of_le hi1 with rfl | hlt
      · omega
      · exact h2 i hlt hi2

/-- `ceilLog2 x` is the least `e` with `x ≤ 2^e`, for `x ≤ 2^33`. -/
theorem ceilLog2_spec {x : Nat} (hx : x ≤ 2 ^ 33) :
    x ≤ 2 ^ ceilLog2 x ∧ ∀ i, i < ceilLog2 x → 2 ^ i < x := by
  have h := clogAux_spec x 33 0 (by simpa using hx)
  exact ⟨h.1, fun i hi => h.2.1 i (Nat.zero_le _) hi⟩

/-- For `x ≤ 2^32` the ceiling logarithm stays at most 32. -/
theorem ceilLog2_le_32 {x : Nat} (hx : x ≤ 2 ^ 32) : ceilLog2 x ≤ 32 := by
  by_contra h
  have h32 : 32 < ceilLog2 x := by omega
  have := (clogAux_spec x 33 0 (le_trans hx (by norm_num))).2.1 32 (Nat.zero_le _) h32
  omega

/-- C9: for every 32-bit unsigned integer `n`,
`ipToNumber(numberToIp(n)) == n`. -/
theorem c9_ip_roundTrip (n : Nat) (h : n < 2 ^ 32) :
    ipToNumber (numberToIp n) = n := by
  rw [ipToNumber_numberToIp, Nat.mod_eq_of_lt h]

/-- Witness for C9 at the base network `172.16.0.0` (= 2886729728). -/
theorem c9_ip_roundTrip_witness :
    2886729728 < 2 ^ 32 ∧ ipToNumber (numberToIp 2886729728) = 2886729728 :=
  ⟨by norm_num, c9_ip_roundTrip 2886729728 (by norm_num)⟩

/-- C2: for a requested host count `minRequired ≥ 1` (in the 32-bit
range), the search starts at `findSmallestMask minRequired`, which is the
mask of the smallest adequate subnet: its host capacity covers
`minRequired` while every larger mask falls short; and whenever one of the
512 candidate blocks probed from the base network at that mask is free,
the returned mask is exactly that minimal adequate mask (so never
larger). -/
theorem c2_minimal_mask (minRequired : Nat) (h1 : 1 ≤ minRequired)
    (h2 : minRequired + 2 ≤ 2 ^ 32) :
    minRequired ≤ hostsForMask (findSmallestMask minRequired) ∧
    (∀ m, findSmallestMask minRequired < m → hostsForMask m < minRequired) ∧
    (∀ (base : List Nat) (used : List UsedRange),
      (∃ k, k < 512 ∧ isRangeAvailable
          (ipToNumber base + k * 2 ^ (32 - findSmallestMask minRequired))
          (findSmallestMask minRequired) used = true) →
      ∃ net, findAvailableRange base minRequired used
        = some (net, findSmallestMask minRequired)) := by
  have hspec := @ceilLog2_spec (minRequired + 2) (le_trans h2 (by norm_num))
  have hL32 : ceilLog2 (minRequired + 2) ≤ 32 := ceilLog2_le_32 h2
  have hL2 : 2 ≤ ceilLog2 (minRequired + 2) := by
    by_contra h
    have hle : minRequired + 2 ≤ 2 ^ ceilLog2 (minRequired + 2) := hspec.1
    have : 2 ^ ceilLog2 (minRequired + 2) ≤ 2 ^ 1 :=
      Nat.pow_le_pow_right (by norm_num) (by omega)
    omega
  have hm0 : findSmallestMask minRequired = 32 - ceilLog2 (minRequired + 2) := rfl
  refine ⟨?_, ?_, ?_⟩
  · rw [hm0]
    unfold hostsForMask
    rw [show 32 - (32 - ceilLog2 (minRequired + 2)) = ceilLog2 (minRequired + 2) by omega]
    have := hspec.1
    omega
  · intro m hm
    rw [hm0] at hm
    unfold hostsForMask
    have hlt : 32 - m < ceilLog2 (minRequired + 2) := by omega
    have := hspec.2 (32 - m) hlt
    omega
  · intro base used ⟨k, hk, hav⟩
    have hm30 : findSmallestMask minRequired ≤ 30 := by rw [hm0]; omega
    cases hp : probeCandidates (findSmallestMask minRequired) used 512 (ipToNumber base) with
    | none =>
      have := (probeCandidates_none_iff 512 (ipToNumber base)).mp hp k hk
      rw [hav] at this
      cases this
    | some c =>
      refine ⟨numberToIp c, ?_⟩
      unfold findAvailableRange
      rw [show (32 : Nat) = 31 + 1 from rfl,
        searchFromMask_start hm30 hp]

set_option maxRecDepth 8000 in
/-- Witness for C2: a 100-host request against the empty registry is
served at the minimal adequate mask `/25`. -/
theorem c2_minimal_mask_witness :
    (1 ≤ 100 ∧ 100 + 2 ≤ 2 ^ 32) ∧
    ∃ net, findAvailableRange [172, 16, 0, 0] 100 [] = some (net, findSmallestMask 100) :=
  ⟨⟨by norm_num, by norm_num⟩,
    (c2_minimal_mask 100 (by norm_num) (by norm_num)).2.2 [172, 16, 0, 0] []
      ⟨0, by norm_num, by decide⟩⟩

/-- When allocation throws, `generateAdresacja` exits before the registry
push and save: the persisted registry equals the one that was loaded. -/
theorem generateAdresacja_none_registry {rows : List CsvRow} {reg : List UsedRange}
    {fileBase : String} {config : Config}
    (h : (generateAdresacja rows reg fileBase config).1 = none) :
    (generateAdresacja rows reg fileBase config).2 = reg := by
  unfold generateAdresacja at h ⊢
  simp only at h ⊢
  cases hf : findAvailableRange baseNetwork
      (devicesWithBuffer ((sortCsvRows rows).map (·.ilosc)).sum) reg with
  | none => simp [hf]
  | some p =>
    obtain ⟨net, mask⟩ := p
    rw [hf] at h
    simp at h

/-- C3: `findAvailableRange` throws PoolExhausted exactly when, for every
mask from the starting mask through 30, each of the 512 candidate blocks
probed from the base network overlaps the registry; and on that failure
the allocation leaves the registry exactly as it was. -/
theorem c3_poolExhausted (base : List Nat) (need : Nat) (used : List UsedRange)
    (rows : List CsvRow) (reg : List UsedRange) (fileBase : String) (config : Config) :
    (findAvailableRange base need used = none ↔
      ∀ m, findSmallestMask need ≤ m → m ≤ 30 →
        ∀ k, k < 512 →
          isRangeAvailable (ipToNumber base + k * 2 ^ (32 - m)) m used = false) ∧
    ((generateAdresacja rows reg fileBase config).1 = none →
      (generateAdresacja rows reg fileBase config).2 = reg) := by
  constructor
  · have hiff := @searchFromMask_none_iff (ipToNumber base) used
      32 (findSmallestMask need) (by omega)
    have hfind : findAvailableRange base need used = none ↔
        searchFromMask (ipToNumber base) used 32 (findSmallestMask need) = none := by
      unfold findAvailableRange
      cases hs : searchFromMask (ipToNumber base) used 32 (findSmallestMask need) with
      | none => simp
      | some p => obtain ⟨c, m⟩ := p; simp
    rw [hfind, hiff]
    constructor
    · intro h m h1 h2 k hk
      have := (probeCandidates_none_iff 512 (ipToNumber base)).mp (h m h1 h2) k hk
      exact this
    · intro h m h1 h2
      exact (probeCandidates_none_iff 512 (ipToNumber base)).mpr (fun k hk => h m h1 h2 k hk)
  · exact generateAdresacja_none_registry

set_option maxRecDepth 8000 in
/-- Witness for C3: one `lan` device against a registry holding
`0.0.0.0/0` exhausts the pool, and the registry is returned untouched. -/
theorem c3_poolExhausted_witness :
    (generateAdresacja [⟨"O", "K", "d", 1, "lan"⟩] fullRegistry "f" ⟨false, false⟩).1 = none ∧
    (generateAdresacja [⟨"O", "K", "d", 1, "lan"⟩] fullRegistry "f" ⟨false, false⟩).2
      = fullRegistry :=
  ⟨by decide,
    (c3_poolExhausted [172, 16, 0, 0] 2 fullRegistry
      [⟨"O", "K", "d", 1, "lan"⟩] fullRegistry "f" ⟨false, false⟩).2 (by decide)⟩

/-- From a successful search, the winning raw candidate is available
against the whole registry. -/
theorem searchFromMask_available {base : Nat} {used : List UsedRange} {fuel mask c m : Nat}
    (h : searchFromMask base used fuel mask = some (c, m)) :
    isRangeAvailable c m used = true :=
  (probeCandidates_some (searchFromMask_some h).2.2).1

/-- C1 (amended): a candidate returned by `findAvailableRange` whose raw
probe counter has not run past `2^32` (so `numberToIp` does not wrap it)
is recorded with an interval disjoint from every reservation in the
registry, and appending it preserves pairwise disjointness; hence
sequential non-wrapping allocations keep the registry pairwise disjoint. -/
theorem c1_disjoint_preserved (base : List Nat) (minRequired : Nat)
    (used : List UsedRange) (rs re : List Nat) (label : String) (c m : Nat)
    (hdisj : used.Pairwise reservationsDisjoint)
    (hsearch : searchFromMask (ipToNumber base) used 32 (findSmallestMask minRequired)
      = some (c, m))
    (hc : c < 2 ^ 32) :
    findAvailableRange base minRequired used = some (numberToIp c, m) ∧
    (∀ u ∈ used, reservationsDisjoint u (mkReservation (numberToIp c) m rs re label)) ∧
    (used ++ [mkReservation (numberToIp c) m rs re label]).Pairwise reservationsDisjoint := by
  have hround : ipToNumber (numberToIp c) = c := by
    rw [ipToNumber_numberToIp, Nat.mod_eq_of_lt hc]
  have havail := searchFromMask_available hsearch
  simp only [isRangeAvailable, List.all_eq_true, Bool.or_eq_true, decide_eq_true_eq] at havail
  have hdisj_new : ∀ u ∈ used,
      reservationsDisjoint u (mkReservation (numberToIp c) m rs re label) := by
    intro u hu
    have := havail u hu
    unfold reservationsDisjoint mkReservation
    simp only [hround]
    rcases this with h | h
    · right; exact h
    · left; omega
  refine ⟨?_, hdisj_new, ?_⟩
  · unfold findAvailableRange
    rw [hsearch]
  · rw [List.pairwise_append]
    refine ⟨hdisj, by simp, ?_⟩
    intro a ha b hb
    simp only [List.mem_singleton] at hb
    subst hb
    exact hdisj_new a ha

set_option maxRecDepth 8000 in
/-- C1 counterexample: with the (pairwise disjoint) registry holding
`0.0.0.0/0` and a request for 2^30 - 2 hosts, the probe counter passes
`2^32`, the wrapped raw value `5034213376` is judged available, and the
recorded reservation `44.16.0.0/2` overlaps the existing reservation —
the claimed invariant fails. -/
theorem c1_counterexample :
    fullRegistry.Pairwise reservationsDisjoint ∧
    findAvailableRange [172, 16, 0, 0] 1073741822 fullRegistry = some ([44, 16, 0, 0], 2) ∧
    ¬ reservationsDisjoint
        (mkReservation [44, 16, 0, 0] 2 [44, 16, 0, 1] [44, 15, 255, 254] "Adresacja_c.csv")
        (mkReservation [0, 0, 0, 0] 0 [0, 0, 0, 1] [255, 255, 255, 254] "Adresacja_b.csv") := by
  refine ⟨by decide, by decide, by decide⟩

set_option maxRecDepth 8000 in
/-- Witness for the amended C1: a 100-host allocation against the
`172.16.0.0/24` registry lands on `172.16.1.0/25` (raw candidate
2886729984, no wrap) and the grown registry stays pairwise disjoint. -/
theorem c1_disjoint_preserved_witness :
    (exampleRegistry.Pairwise reservationsDisjoint ∧
      searchFromMask (ipToNumber [172, 16, 0, 0]) exampleRegistry 32 (findSmallestMask 100)
        = some (2886729984, 25) ∧ 2886729984 < 2 ^ 32) ∧
    (findAvailableRange [172, 16, 0, 0] 100 exampleRegistry
        = some (numberToIp 2886729984, 25) ∧
      (∀ u ∈ exampleRegistry, reservationsDisjoint u
        (mkReservation (numberToIp 2886729984) 25 [172, 16, 1, 1] [172, 16, 1, 126]
          "Adresacja_d.csv")) ∧
      (exampleRegistry ++
        [mkReservation (numberToIp 2886729984) 25 [172, 16, 1, 1] [172, 16, 1, 126]
          "Adresacja_d.csv"]).Pairwise reservationsDisjoint) :=
  ⟨⟨by decide, by decide, by decide⟩,
    c1_disjoint_preserved [172, 16, 0, 0] 100 exampleRegistry
      [172, 16, 1, 1] [172, 16, 1, 126] "Adresacja_d.csv" 2886729984 25
      (by decide) (by decide) (by decide)⟩

/-- C7: with `lprEnabled = false` the equipment deriver returns the empty
list, whatever the rows and the red-light flag. -/
theorem c7_lpr_gating (rows : List CsvRow) (redLight : Bool) :
    generateNastawniaEquipment rows ⟨false, redLight⟩ = [] := rfl

/-- C6: with `lprEnabled = true` the derived equipment list is exactly
`ceil(cameraSets / maxSetsPerServer)` server items, one SSV license item
when `ssvLicenses > 0`, one VCA license item when `vcaLicenses > 0`, and
`ceil(cameraSets / 16)` recorder items when `cameraSets > 0`, in that
order, with `maxSetsPerServer = 4 / 12`, `ssvLicenses = max(8, allCameras)`
and `vcaLicenses = u1532Cameras / 0` according to `redLightEnabled`. -/
theorem c6_equipment_shape (rows : List CsvRow) (redLight : Bool) :
    generateNastawniaEquipment rows ⟨true, redLight⟩ =
      (List.range ((countCameraSets rows + (if redLight then 4 else 12) - 1)
          / (if redLight then 4 else 12))).map
        (fun i =>
          { nazwa := "Serwer LPR " ++ toString (i + 1), klasa := "Klasa-0", typ := "serwer",
            ilosc := 1,
            opis := "Serwer dla zestawu kamer U1532/S1536LTN (max "
              ++ toString (if redLight then 4 else 12) ++ " zestawów)" })
      ++ (if max 8 (countSKPAndKATACameras rows) > 0 then
            [{ nazwa := "Licencja SSV", klasa := "Klasa-0", typ := "licencja",
               ilosc := max 8 (countSKPAndKATACameras rows),
               opis := "Licencja SSV dla " ++ toString (max 8 (countSKPAndKATACameras rows))
                 ++ " kamer (minimum 8)" }]
          else [])
      ++ (if (if redLight then countU1532CamerasInKATObjects rows else 0) > 0 then
            [{ nazwa := "Licencja VCA", klasa := "Klasa-0", typ := "licencja",
               ilosc := if redLight then countU1532CamerasInKATObjects rows else 0,
               opis := "Licencja VCA dla "
                 ++ toString (if redLight then countU1532CamerasInKATObjects rows else 0)
                 ++ " kamer U1532 w obiektach KAT A/B" }]
          else [])
      ++ (if countCameraSets rows > 0 then
            (List.range ((countCameraSets rows + 16 - 1) / 16)).map
              (fun i =>
                { nazwa := "Rejestrator NVR " ++ toString (i + 1), klasa := "Klasa-0",
                  typ := "rejestrator", ilosc := 1,
                  opis := "Rejestrator dla kamer (pojemność: "
                    ++ toString ((DISK_CAPACITIES.lookup "16TB").getD 0) ++ "GB)" })
          else []) := by
  cases redLight <;> rfl

/-- C8: the registry loader returns the empty list whenever the file read
fails (missing/unreadable path) or the content fails to parse; the
`try/catch` never lets a failure reach the caller. -/
theorem c8_load_lenient (readFileResult : Option String)
    (parseJson : String → Option (List UsedRange))
    (h : readFileResult = none ∨ ∃ data, readFileResult = some data ∧ parseJson data = none) :
    loadUsedRanges readFileResult parseJson = [] := by
  rcases h with h | ⟨data, h1, h2⟩
  · subst h; rfl
  · subst h1; simp [loadUsedRanges, h2]

/-- Witness for C8 on both failure shapes: missing file and unparseable
content. -/
theorem c8_load_lenient_witness :
    loadUsedRanges none (fun _ => none) = [] ∧
    loadUsedRanges (some "not a json document") (fun _ => none) = [] :=
  ⟨c8_load_lenient none (fun _ => none) (Or.inl rfl),
    c8_load_lenient (some "not a json document") (fun _ => none)
      (Or.inr ⟨"not a json document", rfl, rfl⟩)⟩

/-- Fusing the per-group filter with the `lanz` bucket filter. -/
theorem lanzGroup_filter (rows : List CsvRow) (key : String) :
    (rows.filter fun r => r.klasa == "lanz").filter (fun r => r.nazwaObiektu == key)
      = rows.filter (fun r => r.klasa == "lanz" && r.nazwaObiektu == key) := by
  rw [List.filter_filter]
  exact List.filter_congr (fun r _ => by rw [Bool.and_comm])

/-- C5 (amended): for rows whose classes lie in the five-value enum and
none of whose `lanz` object names is an `Object.prototype` member name
(on such a name the classifier throws `TypeError` and produces nothing),
the classifier terminates and its output is
`brak ++ lan ++ lanz(grouped) ++ lanz1` with the `lanz` groups keyed by
object name and expanded marker-first; the group order is the JS object
key order: object names that are canonical array-index numerals come
first in ascending numeric order, the remaining group keys follow in
first-occurrence order (for key sets with no numeral name this is exactly
first-occurrence order, second conjunct). -/
theorem c5_classifier_order (rows : List CsvRow)
    (hclass : ∀ r ∈ rows, r.klasa = "" ∨ r.klasa = "brak" ∨ r.klasa = "lan" ∨
      r.klasa = "lanz" ∨ r.klasa = "lanz1")
    (hproto : ∀ r ∈ rows, r.klasa = "lanz" →
      objectPrototypeKeys.contains r.nazwaObiektu = false) :
    (sortCsvRowsRun rows = some (
      rows.filter (fun r => r.klasa == "" || r.klasa == "brak")
      ++ rows.filter (fun r => r.klasa == "lan")
      ++ (jsObjectKeyOrder (firstOccur ((rows.filter fun r => r.klasa == "lanz").map
            (·.nazwaObiektu)))).flatMap
          (fun key =>
            (rows.filter fun r => r.klasa == "lanz" && r.nazwaObiektu == key).filter
              (fun r => strIncludes r.nazwa "WV-U1532LA")
            ++ (rows.filter fun r => r.klasa == "lanz" && r.nazwaObiektu == key).filter
              (fun r => strIncludes r.nazwa "WV-S1536LTN")
            ++ (rows.filter fun r => r.klasa == "lanz" && r.nazwaObiektu == key).filter
              (fun r => !strIncludes r.nazwa "WV-U1532LA" && !strIncludes r.nazwa "WV-S1536LTN"))
      ++ rows.filter (fun r => r.klasa == "lanz1"))) ∧
    (∀ ks : List String, (∀ k ∈ ks, arrayIndexOf k = none) → jsObjectKeyOrder ks = ks) := by
  have hthrows : sortCsvRowsThrows rows = false := by
    unfold sortCsvRowsThrows
    rw [List.any_eq_false]
    intro row hrow
    have hmem := List.mem_filter.mp hrow
    have hlanz : row.klasa = "lanz" := beq_iff_eq.mp hmem.2
    rw [hproto row hmem.1 hlanz]
    simp
  constructor
  · unfold sortCsvRowsRun
    rw [hthrows]
    simp only [Bool.false_eq_true, if_false, Option.some.injEq]
    simp only [sortCsvRows]
    congr 1
    congr 1
    congr 1
    funext key
    rw [lanzGroup_filter]
  · intro ks h
    unfold jsObjectKeyOrder
    rw [List.filter_eq_nil_iff.mpr (by intro k hk; rw [h k hk]; simp),
      List.filter_eq_self.mpr (by intro k hk; rw [h k hk]; simp)]
    rfl

/-- C5 counterexample: two `lanz` rows with the numeric object names
`"2"` then `"1"` come out grouped in ascending numeric key order
(`"1"` before `"2"`), not in first-occurrence order as claimed; and a
`lanz` row whose object name is the `Object.prototype` member `toString`
makes the classifier throw instead of producing any ordering at all. -/
theorem c5_counterexample :
    sortCsvRowsRun [⟨"2", "", "a", 1, "lanz"⟩, ⟨"1", "", "b", 1, "lanz"⟩]
      = some [⟨"1", "", "b", 1, "lanz"⟩, ⟨"2", "", "a", 1, "lanz"⟩] ∧
    sortCsvRowsRun [⟨"2", "", "a", 1, "lanz"⟩, ⟨"1", "", "b", 1, "lanz"⟩]
      ≠ some [⟨"2", "", "a", 1, "lanz"⟩, ⟨"1", "", "b", 1, "lanz"⟩] ∧
    sortCsvRowsRun [⟨"toString", "", "c", 1, "lanz"⟩] = none :=
  ⟨by decide, by decide, by decide⟩

/-- Witness for C5 on rows with non-numeric, non-prototype object names:
both hypotheses hold and the group keys keep their first-occurrence
order. -/
theorem c5_classifier_order_witness :
    (∀ r ∈ exampleRows, r.klasa = "" ∨ r.klasa = "brak" ∨ r.klasa = "lan" ∨
      r.klasa = "lanz" ∨ r.klasa = "lanz1") ∧
    (∀ r ∈ exampleRows, r.klasa = "lanz" →
      objectPrototypeKeys.contains r.nazwaObiektu = false) ∧
    jsObjectKeyOrder ["B", "A"] = ["B", "A"] :=
  ⟨by decide, by decide,
    (c5_classifier_order exampleRows (by decide) (by decide)).2 ["B", "A"] (by decide)⟩

/-- Units of a `lanz1` row: all-DHCP rows, `currentIP` untouched. -/
theorem emitUnits_lanz1 {row : CsvRow} (hk : row.klasa = "lanz1")
    (mask : Nat) (rs : List Nat) :
    ∀ (n cur : Nat), emitUnits row mask rs n cur = (List.replicate n (dhcpRow row), cur)
  | 0, cur => rfl
  | n + 1, cur => by
    simp only [emitUnits, hk, beq_self_eq_true, if_true]
    rw [emitUnits_lanz1 hk mask rs n cur]
    simp [List.replicate_succ]

/-- Units of a non-`lanz1` row: consecutive static rows, `currentIP`
advanced by the quantity. -/
theorem emitUnits_static {row : CsvRow} (hk : ¬ row.klasa = "lanz1")
    (mask : Nat) (rs : List Nat) :
    ∀ (n cur : Nat), emitUnits row mask rs n cur
      = ((List.range n).map (fun i => staticRow row (numberToIp (cur + i)) mask rs), cur + n)
  | 0, cur => by simp [emitUnits]
  | n + 1, cur => by
    have hb : (row.klasa == "lanz1") = false := by simp [hk]
    simp only [emitUnits, hb, Bool.false_eq_true, if_false]
    rw [emitUnits_static hk mask rs n (cur + 1)]
    rw [List.range_succ_eq_map, List.map_cons, List.map_map]
    refine Prod.ext ?_ (by omega)
    simp only [Nat.add_zero, List.cons.injEq, true_and]
    apply List.map_congr_left
    intro i _
    simp only [Function.comp_apply]
    rw [show cur + 1 + i = cur + Nat.succ i by omega]

/-- The final `currentIP` after a row list: start plus the static units. -/
theorem emitRows_snd (mask : Nat) (rs : List Nat) :
    ∀ (rows : List CsvRow) (cur : Nat),
      (emitRows mask rs rows cur).2 = cur + staticCount rows
  | [], cur => by simp [emitRows, staticCount]
  | row :: rest, cur => by
    simp only [emitRows]
    by_cases hk : row.klasa = "lanz1"
    · rw [emitUnits_lanz1 hk]
      rw [emitRows_snd mask rs rest cur]
      simp [staticCount, List.filter_cons, hk]
    · rw [emitUnits_static hk]
      rw [emitRows_snd mask rs rest (cur + row.ilosc)]
      have hb : (!(row.klasa == "lanz1")) = true := by simp [hk]
      simp only [staticCount, List.filter_cons, hb, if_true, List.map_cons, List.sum_cons]
      omega

/-- Every row of quantity `q` contributes exactly `q` output units. -/
theorem emitRows_length (mask : Nat) (rs : List Nat) :
    ∀ (rows : List CsvRow) (cur : Nat),
      (emitRows mask rs rows cur).1.length = totalCount rows
  | [], cur => by simp [emitRows, totalCount]
  | row :: rest, cur => by
    simp only [emitRows]
    have hlen : ∀ c, (emitUnits row mask rs row.ilosc c).1.length = row.ilosc := by
      intro c
      by_cases hk : row.klasa = "lanz1"
      · rw [emitUnits_lanz1 hk]; simp
      · rw [emitUnits_static hk]; simp
    simp only [List.length_append, hlen, emitRows_length mask rs rest]
    simp [totalCount]

/-- The addresses of the non-dynamic units are the consecutive IPs from
the start counter, in emission order. -/
theorem emitRows_addresses (mask : Nat) (rs : List Nat) :
    ∀ (rows : List CsvRow) (cur : Nat),
      ((emitRows mask rs rows cur).1.filter (fun r => !isDynamic r)).map (·.adresIp)
        = (List.range (staticCount rows)).map (fun i => OutField.ip (numberToIp (cur + i)))
  | [], cur => by simp [emitRows, staticCount]
  | row :: rest, cur => by
    simp only [emitRows, List.filter_append, List.map_append]
    by_cases hk : row.klasa = "lanz1"
    · rw [emitUnits_lanz1 hk]
      have h0 : (List.replicate row.ilosc (dhcpRow row)).filter (fun r => !isDynamic r) = [] := by
        refine List.filter_eq_nil_iff.mpr ?_
        intro a ha
        rw [(List.mem_replicate.mp ha).2]
        simp [isDynamic, dhcpRow]
      rw [h0]
      simp only [List.map_nil, List.nil_append]
      rw [emitRows_addresses mask rs rest cur]
      have : staticCount (row :: rest) = staticCount rest := by
        simp [staticCount, List.filter_cons, hk]
      rw [this]
    · rw [emitUnits_static hk]
      have h1 : ((List.range row.ilosc).map
          (fun i => staticRow row (numberToIp (cur + i)) mask rs)).filter
            (fun r => !isDynamic r)
          = (List.range row.ilosc).map (fun i => staticRow row (numberToIp (cur + i)) mask rs) := by
        refine List.filter_eq_self.mpr ?_
        intro a ha
        obtain ⟨i, _, rfl⟩ := List.mem_map.mp ha
        simp [isDynamic, staticRow]
      rw [h1, emitRows_addresses mask rs rest (cur + row.ilosc)]
      have h2 : staticCount (row :: rest) = row.ilosc + staticCount rest := by
        have hb : (!(row.klasa == "lanz1")) = true := by simp [hk]
        simp [staticCount, List.filter_cons, hb]
      rw [h2, List.range_add, List.map_append]
      congr 1
      · rw [List.map_map]
        apply List.map_congr_left
        intro i _
        simp [staticRow]
      · rw [List.map_map]
        apply List.map_congr_left
        intro i _
        simp only [Function.comp_apply]
        rw [Nat.add_assoc]

/-- The number of DHCP units equals the total quantity of `lanz1` rows. -/
theorem emitRows_dhcp_length (mask : Nat) (rs : List Nat) :
    ∀ (rows : List CsvRow) (cur : Nat),
      ((emitRows mask rs rows cur).1.filter (fun r => isDynamic r)).length = dhcpCount rows
  | [], cur => by simp [emitRows, dhcpCount]
  | row :: rest, cur => by
    simp only [emitRows, List.filter_append, List.length_append]
    by_cases hk : row.klasa = "lanz1"
    · rw [emitUnits_lanz1 hk]
      have h0 : (List.replicate row.ilosc (dhcpRow row)).filter (fun r => isDynamic r)
          = List.replicate row.ilosc (dhcpRow row) := by
        refine List.filter_eq_self.mpr ?_
        intro a ha
        rw [(List.mem_replicate.mp ha).2]
        simp [isDynamic, dhcpRow]
      rw [h0, emitRows_dhcp_length mask rs rest cur]
      simp [dhcpCount, List.filter_cons, hk]
    · rw [emitUnits_static hk]
      have h1 : ((List.range row.ilosc).map
          (fun i => staticRow row (numberToIp (cur + i)) mask rs)).filter
            (fun r => isDynamic r) = [] := by
        refine List.filter_eq_nil_iff.mpr ?_
        intro a ha
        obtain ⟨i, _, rfl⟩ := List.mem_map.mp ha
        simp [isDynamic, staticRow]
      rw [h1, emitRows_dhcp_length mask rs rest (cur + row.ilosc)]
      have hb : (row.klasa == "lanz1") = false := by simp [hk]
      simp [dhcpCount, List.filter_cons, hb]

/-- Dynamic units carry the DHCP sentinel in all four address fields. -/
theorem emitRows_mem_dynamic (mask : Nat) (rs : List Nat) :
    ∀ (rows : List CsvRow) (cur : Nat) (r : OutputRow),
      r ∈ (emitRows mask rs rows cur).1 → isDynamic r = true →
        r.adresIp = .dhcp ∧ r.maska = .dhcp ∧ r.brama = .dhcp ∧ r.ntp = .dhcp
  | [], cur, r, hr, _ => by simp [emitRows] at hr
  | row :: rest, cur, r, hr, hdyn => by
    simp only [emitRows, List.mem_append] at hr
    rcases hr with hr | hr
    · by_cases hk : row.klasa = "lanz1"
      · rw [emitUnits_lanz1 hk] at hr
        rw [(List.mem_replicate.mp hr).2]
        simp [dhcpRow]
      · rw [emitUnits_static hk] at hr
        obtain ⟨i, _, rfl⟩ := List.mem_map.mp hr
        simp [isDynamic, staticRow] at hdyn
    · exact emitRows_mem_dynamic mask rs rest _ r hr hdyn

/-- Non-dynamic units carry the subnet mask and the range start as both
gateway and NTP. -/
theorem emitRows_mem_static (mask : Nat) (rs : List Nat) :
    ∀ (rows : List CsvRow) (cur : Nat) (r : OutputRow),
      r ∈ (emitRows mask rs rows cur).1 → isDynamic r = false →
        r.brama = .ip rs ∧ r.ntp = .ip rs ∧ r.maska = .ip (cidrToDecimal mask)
  | [], cur, r, hr, _ => by simp [emitRows] at hr
  | row :: rest, cur, r, hr, hdyn => by
    simp only [emitRows, List.mem_append] at hr
    rcases hr with hr | hr
    · by_cases hk : row.klasa = "lanz1"
      · rw [emitUnits_lanz1 hk] at hr
        rw [(List.mem_replicate.mp hr).2] at hdyn
        simp [isDynamic, dhcpRow] at hdyn
      · rw [emitUnits_static hk] at hr
        obtain ⟨i, _, rfl⟩ := List.mem_map.mp hr
        simp [staticRow]
    · exact emitRows_mem_static mask rs rest _ r hr hdyn

/-- Membership in the first-occurrence key list. -/
theorem firstOccurAux_mem :
    ∀ (l seen : List String) (x : String),
      x ∈ firstOccurAux seen l ↔ x ∈ l ∧ x ∉ seen
  | [], seen, x => by simp [firstOccurAux]
  | k :: rest, seen, x => by
    by_cases hk : k ∈ seen
    · rw [firstOccurAux, if_pos hk, firstOccurAux_mem rest seen x]
      constructor
      · rintro ⟨h1, h2⟩
        exact ⟨List.mem_cons_of_mem _ h1, h2⟩
      · rintro ⟨h1, h2⟩
        rcases List.mem_cons.mp h1 with rfl | h1'
        · exact absurd hk h2
        · exact ⟨h1', h2⟩
    · rw [firstOccurAux, if_neg hk]
      simp only [List.mem_cons, firstOccurAux_mem rest (k :: seen) x]
      constructor
      · rintro (rfl | ⟨h1, h2⟩)
        · exact ⟨Or.inl rfl, hk⟩
        · exact ⟨Or.inr h1, fun hs => h2 (Or.inr hs)⟩
      · rintro ⟨rfl | h1, h2⟩
        · exact Or.inl rfl
        · by_cases hxk : x = k
          · exact Or.inl hxk
          · refine Or.inr ⟨h1, fun hs => ?_⟩
            rcases hs with h | h
            · exact hxk h
            · exact h2 h

/-- The first-occurrence key list has no duplicates. -/
theorem firstOccurAux_nodup :
    ∀ (l seen : List String), (firstOccurAux seen l).Nodup
  | [], seen => by simp [firstOccurAux]
  | k :: rest, seen => by
    by_cases hk : k ∈ seen
    · rw [firstOccurAux, if_pos hk]; exact firstOccurAux_nodup rest seen
    · rw [firstOccurAux, if_neg hk]
      refine List.nodup_cons.mpr ⟨?_, firstOccurAux_nodup rest (k :: seen)⟩
      intro hmem
      exact ((firstOccurAux_mem rest (k :: seen) k).mp hmem).2 (List.mem_cons_self k seen)

/-- `firstOccur` keeps exactly the members. -/
theorem firstOccur_mem (l : List String) (x : String) : x ∈ firstOccur l ↔ x ∈ l := by
  rw [firstOccur, firstOccurAux_mem]
  simp

/-- `firstOccur` has no duplicates. -/
theorem firstOccur_nodup (l : List String) : (firstOccur l).Nodup :=
  firstOccurAux_nodup l []

/-- Ascending insertion permutes consing. -/
theorem insertKeyAsc_perm (k : String) :
    ∀ l : List String, (insertKeyAsc k l).Perm (k :: l)
  | [] => List.Perm.refl _
  | x :: xs => by
    rw [insertKeyAsc]
    by_cases h : keyVal k ≤ keyVal x
    · rw [if_pos h]
    · rw [if_neg h]
      exact ((insertKeyAsc_perm k xs).cons x).trans (List.Perm.swap k x xs)

/-- The numeric key sort is a permutation. -/
theorem sortNumericKeys_perm : ∀ l : List String, (sortNumericKeys l).Perm l
  | [] => List.Perm.refl _
  | x :: xs => (insertKeyAsc_perm x (sortNumericKeys xs)).trans ((sortNumericKeys_perm xs).cons x)

/-- The JS object key order is a permutation of the key list. -/
theorem jsObjectKeyOrder_perm (keys : List String) : (jsObjectKeyOrder keys).Perm keys := by
  unfold jsObjectKeyOrder
  exact ((sortNumericKeys_perm _).append (List.Perm.refl _)).trans
    (List.filter_append_perm _ keys)

/-- Pointwise-equal functions give equal flat maps. -/
theorem flatMap_congr_mem {α β : Type} {l : List α} {f g : α → List β}
    (h : ∀ a ∈ l, f a = g a) : l.flatMap f = l.flatMap g := by
  induction l with
  | nil => rfl
  | cons x xs ih =>
    simp only [List.flatMap_cons, h x (List.mem_cons_self x xs),
      ih (fun a ha => h a (List.mem_cons_of_mem _ ha))]

/-- Pointwise permutations give permuted flat maps. -/
theorem flatMap_perm_of_perm {α β : Type} {l : List α} {f g : α → List β}
    (h : ∀ a ∈ l, (f a).Perm (g a)) : (l.flatMap f).Perm (l.flatMap g) := by
  induction l with
  | nil => exact List.Perm.refl _
  | cons x xs ih =>
    simp only [List.flatMap_cons]
    exact (h x (List.mem_cons_self x xs)).append
      (ih (fun a ha => h a (List.mem_cons_of_mem _ ha)))

/-- Grouping a list by a covering, duplicate-free key list permutes it. -/
theorem flatMap_groups_perm :
    ∀ (keys : List String) (l : List CsvRow), keys.Nodup →
      (∀ r ∈ l, r.nazwaObiektu ∈ keys) →
      (keys.flatMap fun k => l.filter fun r => r.nazwaObiektu == k).Perm l
  | [], l, _, hcov => by
    cases l with
    | nil => exact List.Perm.refl _
    | cons a as => exact absurd (hcov a (List.mem_cons_self a as)) (List.not_mem_nil _)
  | k :: ks, l, hnd, hcov => by
    rw [List.flatMap_cons]
    obtain ⟨hk_not, hks_nd⟩ := List.nodup_cons.mp hnd
    have hrest : ∀ k' ∈ ks,
        l.filter (fun r => r.nazwaObiektu == k')
          = (l.filter fun r => !(r.nazwaObiektu == k)).filter
              (fun r => r.nazwaObiektu == k') := by
      intro k' hk'
      rw [List.filter_filter]
      apply List.filter_congr
      intro r _
      have hkk : k' ≠ k := fun e => hk_not (e ▸ hk')
      by_cases h : r.nazwaObiektu = k'
      · simp [h, beq_iff_eq, hkk]
      · simp [beq_iff_eq, h]
    have hfm : (ks.flatMap fun k' => l.filter fun r => r.nazwaObiektu == k')
        = ks.flatMap fun k' => (l.filter fun r => !(r.nazwaObiektu == k)).filter
            fun r => r.nazwaObiektu == k' := flatMap_congr_mem hrest
    rw [hfm]
    have hcov' : ∀ r ∈ (l.filter fun r => !(r.nazwaObiektu == k)), r.nazwaObiektu ∈ ks := by
      intro r hr
      obtain ⟨hrl, hrk⟩ := List.mem_filter.mp hr
      rcases List.mem_cons.mp (hcov r hrl) with h | h
      · simp [h] at hrk
      · exact h
    have hperm := flatMap_groups_perm ks (l.filter fun r => !(r.nazwaObiektu == k)) hks_nd hcov'
    exact ((List.Perm.refl (l.filter fun r => r.nazwaObiektu == k)).append hperm).trans
      (List.filter_append_perm _ l)

/-- Splitting a group into the two marker subgroups and the rest permutes
the group, as long as no name matches both markers (a name matching both
is duplicated by the split). -/
theorem markerSplit_perm (g : List CsvRow)
    (hdup : ∀ r ∈ g, ¬(strIncludes r.nazwa "WV-U1532LA" = true
      ∧ strIncludes r.nazwa "WV-S1536LTN" = true)) :
    (g.filter (fun r => strIncludes r.nazwa "WV-U1532LA")
      ++ g.filter (fun r => strIncludes r.nazwa "WV-S1536LTN")
      ++ g.filter (fun r =>
          !strIncludes r.nazwa "WV-U1532LA" && !strIncludes r.nazwa "WV-S1536LTN")).Perm g := by
  have h2 : g.filter (fun r => strIncludes r.nazwa "WV-S1536LTN")
      = (g.filter fun r => !strIncludes r.nazwa "WV-U1532LA").filter
          (fun r => strIncludes r.nazwa "WV-S1536LTN") := by
    rw [List.filter_filter]
    apply List.filter_congr
    intro r hr
    by_cases hm2 : strIncludes r.nazwa "WV-S1536LTN" = true
    · have hm1 : strIncludes r.nazwa "WV-U1532LA" = false := by
        rcases Bool.eq_false_or_eq_true (strIncludes r.nazwa "WV-U1532LA") with h | h
        · exact absurd ⟨h, hm2⟩ (hdup r hr)
        · exact h
      simp [hm2, hm1]
    · have := Bool.eq_false_iff.mpr hm2
      simp [this]
  have h3 : g.filter (fun r =>
        !strIncludes r.nazwa "WV-U1532LA" && !strIncludes r.nazwa "WV-S1536LTN")
      = (g.filter fun r => !strIncludes r.nazwa "WV-U1532LA").filter
          (fun r => !strIncludes r.nazwa "WV-S1536LTN") := by
    rw [List.filter_filter]
    apply List.filter_congr
    intro r _
    rw [Bool.and_comm]
  rw [h2, h3, List.append_assoc]
  refine List.Perm.trans ?_
    (List.filter_append_perm (fun r => strIncludes r.nazwa "WV-U1532LA") g)
  exact (List.Perm.refl _).append
    (List.filter_append_perm (fun r => strIncludes r.nazwa "WV-S1536LTN")
      (g.filter fun r => !strIncludes r.nazwa "WV-U1532LA"))

/-- The four class buckets partition rows whose class is in the enum. -/
theorem fourBuckets_perm (rows : List CsvRow)
    (hclass : ∀ r ∈ rows, r.klasa = "" ∨ r.klasa = "brak" ∨ r.klasa = "lan" ∨
      r.klasa = "lanz" ∨ r.klasa = "lanz1") :
    (rows.filter (fun r => r.klasa == "" || r.klasa == "brak")
      ++ rows.filter (fun r => r.klasa == "lan")
      ++ rows.filter (fun r => r.klasa == "lanz")
      ++ rows.filter (fun r => r.klasa == "lanz1")).Perm rows := by
  rw [List.perm_iff_count]
  intro a
  by_cases ha : a ∈ rows
  · have hsplit : ∀ (p : CsvRow → Bool), List.count a (rows.filter p)
        = if p a then List.count a rows else 0 := by
      intro p
      by_cases hp : p a = true
      · rw [if_pos hp]; exact List.count_filter hp
      · rw [if_neg hp]
        refine List.count_eq_zero.mpr ?_
        intro hmem
        exact hp (List.mem_filter.mp hmem).2
    simp only [List.count_append, hsplit]
    rcases hclass a ha with h | h | h | h | h <;> simp [h]
  · have h0 : ∀ (p : CsvRow → Bool), List.count a (rows.filter p) = 0 := fun p =>
      List.count_eq_zero.mpr (fun hmem => ha (List.mem_of_mem_filter hmem))
    simp only [List.count_append, h0, List.count_eq_zero_of_not_mem ha]

/-- Under the enum-class and no-dual-marker hypotheses the classifier
output is a permutation of its input. -/
theorem sortCsvRows_perm (rows : List CsvRow)
    (hclass : ∀ r ∈ rows, r.klasa = "" ∨ r.klasa = "brak" ∨ r.klasa = "lan" ∨
      r.klasa = "lanz" ∨ r.klasa = "lanz1")
    (hdup : ∀ r ∈ rows, r.klasa = "lanz" →
      ¬(strIncludes r.nazwa "WV-U1532LA" = true ∧ strIncludes r.nazwa "WV-S1536LTN" = true)) :
    (sortCsvRows rows).Perm rows := by
  simp only [sortCsvRows]
  have hkeys_nodup : (jsObjectKeyOrder (firstOccur
      ((rows.filter fun r => r.klasa == "lanz").map (·.nazwaObiektu)))).Nodup :=
    ((jsObjectKeyOrder_perm _).nodup_iff).mpr (firstOccur_nodup _)
  have hkeys_cover : ∀ r ∈ (rows.filter fun r => r.klasa == "lanz"),
      r.nazwaObiektu ∈ jsObjectKeyOrder (firstOccur
        ((rows.filter fun r => r.klasa == "lanz").map (·.nazwaObiektu))) := by
    intro r hr
    exact ((jsObjectKeyOrder_perm _).mem_iff).mpr
      ((firstOccur_mem _ _).mpr (List.mem_map_of_mem _ hr))
  have hsplit : ∀ key ∈ jsObjectKeyOrder (firstOccur
      ((rows.filter fun r => r.klasa == "lanz").map (·.nazwaObiektu))),
      (((rows.filter fun r => r.klasa == "lanz").filter
          (fun r => r.nazwaObiektu == key)).filter
            (fun r => strIncludes r.nazwa "WV-U1532LA")
        ++ ((rows.filter fun r => r.klasa == "lanz").filter
            (fun r => r.nazwaObiektu == key)).filter
              (fun r => strIncludes r.nazwa "WV-S1536LTN")
        ++ ((rows.filter fun r => r.klasa == "lanz").filter
            (fun r => r.nazwaObiektu == key)).filter
              (fun r => !strIncludes r.nazwa "WV-U1532LA"
                && !strIncludes r.nazwa "WV-S1536LTN")).Perm
        ((rows.filter fun r => r.klasa == "lanz").filter (fun r => r.nazwaObiektu == key)) := by
    intro key _
    apply markerSplit_perm
    intro r hr
    have hrl := List.mem_of_mem_filter hr
    have hlanz : r.klasa = "lanz" :=
      beq_iff_eq.mp (List.mem_filter.mp hrl).2
    exact hdup r (List.mem_of_mem_filter hrl) hlanz
  have hlanz_perm : ((jsObjectKeyOrder (firstOccur
      ((rows.filter fun r => r.klasa == "lanz").map (·.nazwaObiektu)))).flatMap
        (fun key =>
          ((rows.filter fun r => r.klasa == "lanz").filter
              (fun r => r.nazwaObiektu == key)).filter
                (fun r => strIncludes r.nazwa "WV-U1532LA")
            ++ ((rows.filter fun r => r.klasa == "lanz").filter
              (fun r => r.nazwaObiektu == key)).filter
                (fun r => strIncludes r.nazwa "WV-S1536LTN")
            ++ ((rows.filter fun r => r.klasa == "lanz").filter
              (fun r => r.nazwaObiektu == key)).filter
                (fun r => !strIncludes r.nazwa "WV-U1532LA"
                  && !strIncludes r.nazwa "WV-S1536LTN"))).Perm
      (rows.filter fun r => r.klasa == "lanz") :=
    (flatMap_perm_of_perm hsplit).trans
      (flatMap_groups_perm _ _ hkeys_nodup hkeys_cover)
  refine List.Perm.trans ?_ (fourBuckets_perm rows hclass)
  exact ((List.Perm.refl _).append hlanz_perm).append (List.Perm.refl _)

/-- The wrap inside `numberToIp` also absorbs a prior wrap under addition. -/
theorem numberToIp_mod_add (x i : Nat) :
    numberToIp (x % 2 ^ 32 + i) = numberToIp (x + i) := by
  simp [numberToIp, Nat.mod_add_mod]

/-- Characterization of a successful `generateAdresacja` run. -/
theorem generateAdresacja_some {rows : List CsvRow} {reg : List UsedRange}
    {fileBase : String} {config : Config} {res : GenResult} {reg' : List UsedRange}
    (h : generateAdresacja rows reg fileBase config = (some res, reg')) :
    ∃ net mask,
      findAvailableRange baseNetwork (devicesWithBuffer (totalCount (sortCsvRows rows))) reg
        = some (net, mask) ∧
      res = ⟨"Adresacja_" ++ fileBase ++ ".csv",
        (emitRows mask (numberToIp (ipToNumber net + 1)) (sortCsvRows rows)
          (ipToNumber (numberToIp (ipToNumber net + 1)))).1,
        net, mask, numberToIp (ipToNumber net + 1),
        numberToIp (ipToNumber net + hostsForMask mask),
        generateNastawniaEquipment rows config⟩ ∧
      reg' = reg ++ [mkReservation net mask (numberToIp (ipToNumber net + 1))
        (numberToIp (ipToNumber net + hostsForMask mask))
        ("Adresacja_" ++ fileBase ++ ".csv")] := by
  unfold generateAdresacja at h
  simp only at h
  cases hf : findAvailableRange baseNetwork
      (devicesWithBuffer ((sortCsvRows rows).map (·.ilosc)).sum) reg with
  | none => rw [hf] at h; simp at h
  | some p =>
    obtain ⟨net, mask⟩ := p
    rw [hf] at h
    simp only [Prod.mk.injEq, Option.some.injEq] at h
    obtain ⟨h1, h2⟩ := h
    exact ⟨net, mask, hf, h1.symm, h2.symm⟩

/-- C4 (amended): on a successful run over rows with enum classes none of
which names both camera markers, every row of quantity `q` yields exactly
`q` units (`res.rows.length = totalCount rows`), the subnet request is
sized to `ceil(1.2 × total quantity)`, the non-dynamic units receive the
consecutive addresses from `network + 1` in classifier order, the `lanz1`
units (and only they) carry the DHCP sentinel in all four fields, and
every non-dynamic unit's gateway and NTP equal the first usable host. -/
theorem c4_expansion (rows : List CsvRow) (reg : List UsedRange) (fileBase : String)
    (config : Config) (res : GenResult) (reg' : List UsedRange)
    (hclass : ∀ r ∈ rows, r.klasa = "" ∨ r.klasa = "brak" ∨ r.klasa = "lan" ∨
      r.klasa = "lanz" ∨ r.klasa = "lanz1")
    (hdup : ∀ r ∈ rows, r.klasa = "lanz" →
      ¬(strIncludes r.nazwa "WV-U1532LA" = true ∧ strIncludes r.nazwa "WV-S1536LTN" = true))
    (h : generateAdresacja rows reg fileBase config = (some res, reg')) :
    findAvailableRange baseNetwork (devicesWithBuffer (totalCount rows)) reg
        = some (res.network, res.mask) ∧
    res.rangeStart = numberToIp (ipToNumber res.network + 1) ∧
    res.rows.length = totalCount rows ∧
    ((res.rows.filter fun r => !isDynamic r).map (·.adresIp)
      = (List.range (staticCount rows)).map
          (fun i => OutField.ip (numberToIp (ipToNumber res.network + 1 + i)))) ∧
    (res.rows.filter fun r => isDynamic r).length = dhcpCount rows ∧
    (∀ r ∈ res.rows, isDynamic r = true →
      r.adresIp = .dhcp ∧ r.maska = .dhcp ∧ r.brama = .dhcp ∧ r.ntp = .dhcp) ∧
    (∀ r ∈ res.rows, isDynamic r = false →
      r.brama = .ip res.rangeStart ∧ r.ntp = .ip res.rangeStart ∧
      r.maska = .ip (cidrToDecimal res.mask)) := by
  obtain ⟨net, mask, hf, hres, hreg⟩ := generateAdresacja_some h
  have hperm := sortCsvRows_perm rows hclass hdup
  have htot : totalCount (sortCsvRows rows) = totalCount rows :=
    List.Perm.sum_eq (hperm.map _)
  have hstat : staticCount (sortCsvRows rows) = staticCount rows :=
    List.Perm.sum_eq ((hperm.filter _).map _)
  have hdh : dhcpCount (sortCsvRows rows) = dhcpCount rows :=
    List.Perm.sum_eq ((hperm.filter _).map _)
  subst hres
  refine ⟨?_, rfl, ?_, ?_, ?_, ?_, ?_⟩
  · rw [← htot]
    exact hf
  · rw [← htot]
    exact emitRows_length _ _ _ _
  · rw [emitRows_addresses, hstat]
    apply List.map_congr_left
    intro i _
    rw [ipToNumber_numberToIp, numberToIp_mod_add]
  · rw [emitRows_dhcp_length, hdh]
  · intro r hr hdyn
    exact emitRows_mem_dynamic _ _ _ _ r hr hdyn
  · intro r hr hdyn
    exact emitRows_mem_static _ _ _ _ r hr hdyn

/-- C4 counterexample: a single `lanz` row of quantity 1 whose device name
contains both camera markers is emitted twice by the classifier, so the
run produces 2 output units for a total input quantity of 1. -/
theorem c4_counterexample :
    ((generateAdresacja [⟨"O", "", "WV-U1532LA WV-S1536LTN", 1, "lanz"⟩] [] "f"
        ⟨false, false⟩).1.map (fun res => res.rows.length)) = some 2 ∧
    totalCount [⟨"O", "", "WV-U1532LA WV-S1536LTN", 1, "lanz"⟩] = 1 :=
  ⟨by decide, by decide⟩

/-- Witness for the amended C4 on a one-row input. -/
theorem c4_expansion_witness :
    (∀ r ∈ [exampleRow], r.klasa = "" ∨ r.klasa = "brak" ∨ r.klasa = "lan" ∨
      r.klasa = "lanz" ∨ r.klasa = "lanz1") ∧
    (generateAdresacja [exampleRow] [] "f" ⟨false, false⟩ = (some exampleResult, exampleNewReg)) ∧
    exampleResult.rows.length = totalCount [exampleRow] :=
  ⟨by decide, by decide,
    (c4_expansion [exampleRow] [] "f" ⟨false, false⟩ exampleResult exampleNewReg
      (by decide) (by decide) (by decide)).2.2.1⟩

/-- C10: on a successful run with at least one non-dynamic unit, the
first non-dynamic unit's address equals `rangeStart`, which is also every
non-dynamic unit's gateway and NTP address. -/
theorem c10_first_static_shares_gateway (rows : List CsvRow) (reg : List UsedRange)
    (fileBase : String) (config : Config) (res : GenResult) (reg' : List UsedRange)
    (h : generateAdresacja rows reg fileBase config = (some res, reg'))
    (hne : (res.rows.filter fun r => !isDynamic r) ≠ []) :
    ((res.rows.filter fun r => !isDynamic r).map (·.adresIp)).head?
        = some (.ip res.rangeStart) ∧
    ∀ r ∈ res.rows, isDynamic r = false →
      r.brama = .ip res.rangeStart ∧ r.ntp = .ip res.rangeStart := by
  obtain ⟨net, mask, hf, hres, hreg⟩ := generateAdresacja_some h
  subst hres
  constructor
  · rw [emitRows_addresses]
    cases hsc : staticCount (sortCsvRows rows) with
    | zero =>
      exfalso
      apply hne
      have := emitRows_addresses mask (numberToIp (ipToNumber net + 1)) (sortCsvRows rows)
        (ipToNumber (numberToIp (ipToNumber net + 1)))
      rw [hsc] at this
      simp only [List.range_zero, List.map_nil] at this
      exact List.map_eq_nil_iff.mp this
    | succ n =>
      rw [List.range_succ_eq_map, List.map_cons, List.head?_cons]
      rw [ipToNumber_numberToIp, Nat.add_zero, numberToIp_mod]
  · intro r hr hdyn
    exact ⟨(emitRows_mem_static _ _ _ _ r hr hdyn).1, (emitRows_mem_static _ _ _ _ r hr hdyn).2.1⟩

/-- Witness for C10 on the one-row example run. -/
theorem c10_first_static_shares_gateway_witness :
    (generateAdresacja [exampleRow] [] "f" ⟨false, false⟩ = (some exampleResult, exampleNewReg)) ∧
    ((exampleResult.rows.filter fun r => !isDynamic r) ≠ []) ∧
    ((exampleResult.rows.filter fun r => !isDynamic r).map (·.adresIp)).head?
      = some (.ip exampleResult.rangeStart) :=
  ⟨by decide, by decide,
    (c10_first_static_shares_gateway [exampleRow] [] "f" ⟨false, false⟩ exampleResult
      exampleNewReg (by decide) (by decide)).1⟩

end Adresacja
